import Mathlib

/-!
Shallow embedding of `src/gseal_lite_server.py` (GSeal Lite mock server).

The server exposes three FastAPI endpoints — `/start-test`,
`/mock-gseal-api`, `/app-webhook-listener` — plus a background dispatcher
task.  JSON values are modelled by an inductive `Json` type; Python dicts
of JSON values are association lists `List (String × Json)` (insertion
ordered, as Python dicts are).  Pydantic validation of a request body is a
`Json → Except String Model` function; `_model_to_dict` (with
`exclude_none=True`) is a `toDict` function per model.  The dispatcher's
behaviour is modelled as the trace of events it performs.
-/

/-- JSON values. Numbers are modelled as integers, which covers every
numeric literal the claims mention. -/
inductive Json where
  | null
  | bool (b : Bool)
  | num (n : Int)
  | str (s : String)
  | arr (elems : List Json)
  | obj (fields : List (String × Json))

/-- Lookup of a key in a JSON object's field list (Python dict access:
first binding wins; Python dict keys are unique anyway). -/
def lookupField : List (String × Json) → String → Option Json
  | [], _ => none
  | (k, v) :: rest, key => if k = key then some v else lookupField rest key

/-- `StartTestRequest` pydantic model: payload accepted by `/start-test`.
`mock_payload` defaults to `\x7b"document_id": "demo-document"\x7d`;
`webhook_payload` defaults to `None`. -/
structure StartTestRequest where
  mock_payload : List (String × Json) := [("document_id", Json.str "demo-document")]
  webhook_payload : Option (List (String × Json)) := none

/-- `MockGsealRequest` pydantic model: body posted to `/mock-gseal-api`.
`mock_payload` defaults to the empty dict; `webhook_payload` to `None`. -/
structure MockGsealRequest where
  mock_payload : List (String × Json) := []
  webhook_payload : Option (List (String × Json)) := none

/-- `WebhookNotification` pydantic model: payload consumed by
`/app-webhook-listener`.  `event` defaults to `"mock.document.completed"`,
`data` to the empty dict. -/
structure WebhookNotification where
  event : String := "mock.document.completed"
  data : List (String × Json) := []

/-- `_model_to_dict` applied to a `StartTestRequest`:
`model_dump(exclude_none=True)` keeps `mock_payload` always and drops
`webhook_payload` when it is `None`. -/
def StartTestRequest.toDict (r : StartTestRequest) : List (String × Json) :=
  ("mock_payload", Json.obj r.mock_payload) ::
    (match r.webhook_payload with
     | some w => [("webhook_payload", Json.obj w)]
     | none => [])

/-- `_model_to_dict` applied to a `MockGsealRequest` (same
`exclude_none=True` rule). -/
def MockGsealRequest.toDict (r : MockGsealRequest) : List (String × Json) :=
  ("mock_payload", Json.obj r.mock_payload) ::
    (match r.webhook_payload with
     | some w => [("webhook_payload", Json.obj w)]
     | none => [])

/-- `_model_to_dict` applied to a `WebhookNotification`: neither field can
be `None`, so both are always present. -/
def WebhookNotification.toDict (n : WebhookNotification) : List (String × Json) :=
  [("event", Json.str n.event), ("data", Json.obj n.data)]

/-- Pydantic validation of a JSON body against `MockGsealRequest`:
the body must be an object; `mock_payload`, when present, must be a JSON
object; `webhook_payload`, when present, must be a JSON object or `null`
(the field is `Optional`); missing fields take their defaults; extra keys
are ignored (pydantic's default behaviour). -/
def MockGsealRequest.validate (body : Json) : Except String MockGsealRequest :=
  match body with
  | Json.obj fields =>
    match lookupField fields "mock_payload" with
    | some (Json.obj mp) =>
      match lookupField fields "webhook_payload" with
      | some (Json.obj wp) => Except.ok ⟨mp, some wp⟩
      | some Json.null => Except.ok ⟨mp, none⟩
      | none => Except.ok ⟨mp, none⟩
      | some _ => Except.error "webhook_payload is not a valid dict"
    | none =>
      match lookupField fields "webhook_payload" with
      | some (Json.obj wp) => Except.ok ⟨[], some wp⟩
      | some Json.null => Except.ok ⟨[], none⟩
      | none => Except.ok ⟨[], none⟩
      | some _ => Except.error "webhook_payload is not a valid dict"
    | some _ => Except.error "mock_payload is not a valid dict"
  | _ => Except.error "body is not a valid dict"

/-- Pydantic validation of a JSON body against `WebhookNotification`:
`event`, when present, must be a JSON string; `data`, when present, must
be a JSON object; missing fields take their defaults; extra keys are
ignored. -/
def WebhookNotification.validate (body : Json) : Except String WebhookNotification :=
  match body with
  | Json.obj fields =>
    match lookupField fields "event" with
    | some (Json.str e) =>
      match lookupField fields "data" with
      | some (Json.obj d) => Except.ok ⟨e, d⟩
      | none => Except.ok ⟨e, []⟩
      | some _ => Except.error "data is not a valid dict"
    | none =>
      match lookupField fields "data" with
      | some (Json.obj d) => Except.ok ⟨"mock.document.completed", d⟩
      | none => Except.ok ⟨"mock.document.completed", []⟩
      | some _ => Except.error "data is not a valid dict"
    | some _ => Except.error "event is not a valid string"
  | _ => Except.error "body is not a valid dict"

/-- Result of the `/mock-gseal-api` handler: the JSON response body and the
`webhook_payload` handed to the `dispatch_webhook` task it creates. -/
structure MockApiResult where
  response : List (String × Json)
  scheduled : List (String × Json)

/-- The `/mock-gseal-api` handler (`mock_gseal_api` in the source): if the
request supplies a `webhook_payload`, use it; otherwise synthesize the
completed-document payload from `mock_payload`.  Schedule a dispatch of
that payload and return it with a status marker. -/
def mock_gseal_api (request : MockGsealRequest) : MockApiResult :=
  let webhook_payload : List (String × Json) :=
    match request.webhook_payload with
    | some w => w
    | none =>
      [("event", Json.str "mock.document.completed"),
       ("data", Json.obj
         [("status", Json.str "completed"),
          ("original_payload", Json.obj request.mock_payload)])]
  { response :=
      [("status", Json.str "webhook_scheduled"),
       ("webhook_payload", Json.obj webhook_payload)],
    scheduled := webhook_payload }

/-- The `/app-webhook-listener` handler (`app_webhook_listener` in the
source): serialize the parsed notification and echo it with a status
marker. -/
def app_webhook_listener (n : WebhookNotification) : List (String × Json) :=
  [("status", Json.str "received"), ("payload", Json.obj n.toDict)]

/-- The `/app-webhook-listener` endpoint as seen from a raw JSON body:
pydantic validation followed by the handler (a validation failure is
FastAPI's 422 client error). -/
def app_webhook_listener_endpoint (body : Json) :
    Except String (List (String × Json)) :=
  (WebhookNotification.validate body).map app_webhook_listener

/-- An httpx response as observed by the code: its status code, the result
of `response.json()` (which raises `ValueError` on a malformed body), and
the raw `response.text`. -/
structure HttpResponse where
  status_code : Nat
  jsonResult : Except String Json
  text : String

/-- httpx `response.raise_for_status()`: raises (here: returns the failing
status code as an error) unless the status is a 2xx success. -/
def raise_for_status (r : HttpResponse) : Except Nat Unit :=
  if 200 ≤ r.status_code ∧ r.status_code < 300 then Except.ok ()
  else Except.error r.status_code

/-- The `try/except ValueError` around `response.json()` in
`dispatch_webhook`: the parsed JSON on success, the raw text on failure. -/
def response_payload_of (r : HttpResponse) : Json ⊕ String :=
  match r.jsonResult with
  | Except.ok j => Sum.inl j
  | Except.error _ => Sum.inr r.text

/-- A log line written by `dispatch_webhook`: the initial wait notice, or
the completion notice carrying the status code and the parsed-or-raw
response payload. -/
inductive LogEntry where
  | waiting
  | completed (status_code : Nat) (payload : Json ⊕ String)

/-- An observable action of the dispatcher task, in order. -/
inductive Event where
  | log (entry : LogEntry)
  | sleep (seconds : Nat)
  | httpPost (path : String) (body : Json)

/-- `dispatch_webhook`: log, sleep one second, POST the payload to
`/app-webhook-listener`, then log the outcome.  The Listener's reply is
the `listener_response` argument; the function returns the trace of
actions it performed (it returns `None` to its caller in the source, so
the trace is total: no error channel). -/
def dispatch_webhook (webhook_payload : List (String × Json))
    (listener_response : HttpResponse) : List Event :=
  [Event.log LogEntry.waiting,
   Event.sleep 1,
   Event.httpPost "/app-webhook-listener" (Json.obj webhook_payload),
   Event.log (LogEntry.completed listener_response.status_code
     (response_payload_of listener_response))]

/-- Whether an event is an HTTP POST. -/
def Event.isHttpPost : Event → Bool
  | Event.httpPost _ _ => true
  | _ => false

/-- The in-process route for `/mock-gseal-api`, as reached by the internal
loopback client: pydantic validation of the JSON body (failure is
FastAPI's 422) then the handler, whose dict return is the 200 JSON
body.  Also returns the payload scheduled for dispatch, when any. -/
def mock_gseal_api_route (body : Json) :
    HttpResponse × Option (List (String × Json)) :=
  match MockGsealRequest.validate body with
  | Except.ok req =>
    let result := mock_gseal_api req
    ({ status_code := 200,
       jsonResult := Except.ok (Json.obj result.response),
       text := "" },
     some result.scheduled)
  | Except.error _ =>
    ({ status_code := 422,
       jsonResult := Except.ok (Json.obj [("detail", Json.str "validation error")]),
       text := "" },
     none)

/-- What `/start-test` can raise: the `HTTPStatusError` from
`raise_for_status`, or the `ValueError` from `response.json()`. -/
inductive StartError where
  | httpStatus (code : Nat)
  | jsonDecode (msg : String)

/-- The tail of the `start_test` handler, from the point where the
internal POST's response is in hand: `raise_for_status`, then build the
success body around `response.json()`. -/
def start_test_core (internal : HttpResponse) :
    Except StartError (List (String × Json)) :=
  match raise_for_status internal with
  | Except.error s => Except.error (StartError.httpStatus s)
  | Except.ok _ =>
    match internal.jsonResult with
    | Except.ok j =>
      Except.ok
        [("status", Json.str "mock_request_dispatched"),
         ("mock_api_response", j)]
    | Except.error e => Except.error (StartError.jsonDecode e)

/-- The `/start-test` handler (`start_test` in the source): default the
optional payload, serialize it with `exclude_none`, POST it to the
in-process `/mock-gseal-api` route, and finish with `start_test_core`. -/
def start_test (payload : Option StartTestRequest) :
    Except StartError (List (String × Json)) :=
  let p := payload.getD {}
  let payload_dict := Json.obj p.toDict
  start_test_core (mock_gseal_api_route payload_dict).1

/-- Serializing a `StartTestRequest` with `exclude_none` and re-validating
it as a `MockGsealRequest` (what the internal POST from `/start-test` to
`/mock-gseal-api` does) recovers the same two fields. -/
theorem validate_toDict_roundtrip (s : StartTestRequest) :
    MockGsealRequest.validate (Json.obj s.toDict) =
      Except.ok ⟨s.mock_payload, s.webhook_payload⟩ := by
  obtain ⟨mp, wp⟩ := s
  cases wp <;> rfl

/-- Claim C1: when `webhook_payload` is absent, `/mock-gseal-api` responds
with the synthesized payload
`event = "mock.document.completed",
data = (status = "completed", original_payload = mock_payload)`. -/
theorem mock_api_synthesizes_default_payload (req : MockGsealRequest)
    (h : req.webhook_payload = none) :
    lookupField (mock_gseal_api req).response "webhook_payload" =
      some (Json.obj
        [("event", Json.str "mock.document.completed"),
         ("data", Json.obj
           [("status", Json.str "completed"),
            ("original_payload", Json.obj req.mock_payload)])]) ∧
    lookupField (mock_gseal_api req).response "status" =
      some (Json.str "webhook_scheduled") := by
  obtain ⟨mp, wp⟩ := req
  cases h
  exact ⟨rfl, rfl⟩

/-- Witness for C1 at `mock_payload = (document_id = "doc-1")`. -/
theorem mock_api_synthesizes_default_payload_witness :
    ({ mock_payload := [("document_id", Json.str "doc-1")] } :
        MockGsealRequest).webhook_payload = none ∧
    (lookupField
        (mock_gseal_api
          { mock_payload := [("document_id", Json.str "doc-1")] }).response
        "webhook_payload" =
      some (Json.obj
        [("event", Json.str "mock.document.completed"),
         ("data", Json.obj
           [("status", Json.str "completed"),
            ("original_payload",
              Json.obj [("document_id", Json.str "doc-1")])])]) ∧
    lookupField
        (mock_gseal_api
          { mock_payload := [("document_id", Json.str "doc-1")] }).response
        "status" =
      some (Json.str "webhook_scheduled")) :=
  ⟨rfl, mock_api_synthesizes_default_payload _ rfl⟩

/-- Claim C2: `/app-webhook-listener` is a pure echo: the handler returns
`status = "received"` plus the received notification serialized unchanged,
and on the concrete body `(event = "x", data = (a = 1))` the endpoint
round-trips the payload. -/
theorem listener_pure_echo :
    (∀ n : WebhookNotification,
      app_webhook_listener n =
        [("status", Json.str "received"), ("payload", Json.obj n.toDict)]) ∧
    (∀ (e : String) (d : List (String × Json)),
      app_webhook_listener_endpoint
          (Json.obj [("event", Json.str e), ("data", Json.obj d)]) =
        Except.ok
          [("status", Json.str "received"),
           ("payload", Json.obj [("event", Json.str e), ("data", Json.obj d)])]) :=
  ⟨fun _ => rfl, fun _ _ => rfl⟩

/-- Claim C3: an explicit `webhook_payload` override is echoed verbatim in
the `/mock-gseal-api` response and is exactly what gets scheduled. -/
theorem mock_api_override_verbatim (req : MockGsealRequest)
    (wp : List (String × Json)) (h : req.webhook_payload = some wp) :
    lookupField (mock_gseal_api req).response "webhook_payload" =
      some (Json.obj wp) ∧
    (mock_gseal_api req).scheduled = wp := by
  obtain ⟨mp, o⟩ := req
  cases h
  exact ⟨rfl, rfl⟩

/-- Witness for C3 at the override `(k = "v")`. -/
theorem mock_api_override_verbatim_witness :
    ({ webhook_payload := some [("k", Json.str "v")] } :
        MockGsealRequest).webhook_payload = some [("k", Json.str "v")] ∧
    (lookupField
        (mock_gseal_api
          { webhook_payload := some [("k", Json.str "v")] }).response
        "webhook_payload" =
      some (Json.obj [("k", Json.str "v")]) ∧
    (mock_gseal_api
        { webhook_payload := some [("k", Json.str "v")] }).scheduled =
      [("k", Json.str "v")]) :=
  ⟨rfl, mock_api_override_verbatim _ _ rfl⟩

/-- Claim C4: when the internal POST to `/mock-gseal-api` comes back with
a non-2xx status, `raise_for_status` makes `/start-test` fail with that
status; the success body is never returned. -/
theorem start_test_propagates_failure (internal : HttpResponse)
    (h : ¬(200 ≤ internal.status_code ∧ internal.status_code < 300)) :
    start_test_core internal =
      Except.error (StartError.httpStatus internal.status_code) := by
  unfold start_test_core raise_for_status
  rw [if_neg h]

/-- Witness for C4 at a 500 response. -/
theorem start_test_propagates_failure_witness :
    ¬(200 ≤ (500 : Nat) ∧ (500 : Nat) < 300) ∧
    start_test_core
        { status_code := 500, jsonResult := Except.error "boom", text := "boom" } =
      Except.error (StartError.httpStatus 500) :=
  ⟨by decide,
   start_test_propagates_failure
     { status_code := 500, jsonResult := Except.error "boom", text := "boom" }
     (by decide)⟩

/-- Claim C5: for any `/mock-gseal-api` call, the dispatcher trace is
log, a 1-second sleep, then exactly one POST to `/app-webhook-listener`
whose body is the same `webhook_payload` the response returned, then the
outcome log. -/
theorem dispatcher_posts_scheduled_payload_once (req : MockGsealRequest)
    (resp : HttpResponse) :
    (dispatch_webhook (mock_gseal_api req).scheduled resp).filter
        Event.isHttpPost =
      [Event.httpPost "/app-webhook-listener"
        (Json.obj (mock_gseal_api req).scheduled)] ∧
    lookupField (mock_gseal_api req).response "webhook_payload" =
      some (Json.obj (mock_gseal_api req).scheduled) ∧
    dispatch_webhook (mock_gseal_api req).scheduled resp =
      [Event.log LogEntry.waiting, Event.sleep 1,
       Event.httpPost "/app-webhook-listener"
         (Json.obj (mock_gseal_api req).scheduled),
       Event.log (LogEntry.completed resp.status_code
         (response_payload_of resp))] :=
  ⟨rfl, rfl, rfl⟩

/-- Claim C6: every `/start-test` call (any optional body, defaults
applied) succeeds — HTTP 200 — with `status = "mock_request_dispatched"`
and the Mock API's JSON response passed through unmodified. -/
theorem start_test_success (payload : Option StartTestRequest) :
    start_test payload =
      Except.ok
        [("status", Json.str "mock_request_dispatched"),
         ("mock_api_response",
           Json.obj (mock_gseal_api
             ⟨(payload.getD {}).mock_payload,
              (payload.getD {}).webhook_payload⟩).response)] := by
  cases payload with
  | none => rfl
  | some p =>
    obtain ⟨mp, wp⟩ := p
    cases wp <;> rfl

/-- Claim C7: when the Listener's response body fails to parse as JSON,
the dispatcher falls back to the raw text, logs the status code with that
raw body, and still returns its full trace (no error escapes). -/
theorem dispatcher_json_fallback (wp : List (String × Json))
    (r : HttpResponse) (e : String) (h : r.jsonResult = Except.error e) :
    response_payload_of r = Sum.inr r.text ∧
    dispatch_webhook wp r =
      [Event.log LogEntry.waiting, Event.sleep 1,
       Event.httpPost "/app-webhook-listener" (Json.obj wp),
       Event.log (LogEntry.completed r.status_code (Sum.inr r.text))] := by
  have h1 : response_payload_of r = Sum.inr r.text := by
    unfold response_payload_of
    rw [h]
  exact ⟨h1, by unfold dispatch_webhook; rw [h1]⟩

/-- Witness for C7 at a malformed 200 response. -/
theorem dispatcher_json_fallback_witness :
    ({ status_code := 200, jsonResult := Except.error "invalid json",
       text := "oops" } : HttpResponse).jsonResult =
      Except.error "invalid json" ∧
    (response_payload_of
        { status_code := 200, jsonResult := Except.error "invalid json",
          text := "oops" } =
      Sum.inr "oops" ∧
    dispatch_webhook []
        { status_code := 200, jsonResult := Except.error "invalid json",
          text := "oops" } =
      [Event.log LogEntry.waiting, Event.sleep 1,
       Event.httpPost "/app-webhook-listener" (Json.obj []),
       Event.log (LogEntry.completed 200 (Sum.inr "oops"))]) :=
  ⟨rfl, dispatcher_json_fallback [] _ "invalid json" rfl⟩

/-- Claim C8: the serialization `/start-test` forwards omits a `None`
`webhook_payload`, always carries `mock_payload`, and the default
`mock_payload` is `(document_id = "demo-document")`. -/
theorem start_request_serialization_omits_none (s : StartTestRequest)
    (h : s.webhook_payload = none) :
    lookupField s.toDict "webhook_payload" = none ∧
    (∀ t : StartTestRequest,
      lookupField t.toDict "mock_payload" = some (Json.obj t.mock_payload)) ∧
    ({} : StartTestRequest).mock_payload =
      [("document_id", Json.str "demo-document")] := by
  obtain ⟨mp, wp⟩ := s
  cases h
  exact ⟨rfl, fun _ => rfl, rfl⟩

/-- Witness for C8 at the default request body. -/
theorem start_request_serialization_omits_none_witness :
    ({} : StartTestRequest).webhook_payload = none ∧
    (lookupField ({} : StartTestRequest).toDict "webhook_payload" = none ∧
    (∀ t : StartTestRequest,
      lookupField t.toDict "mock_payload" = some (Json.obj t.mock_payload)) ∧
    ({} : StartTestRequest).mock_payload =
      [("document_id", Json.str "demo-document")]) :=
  ⟨rfl, start_request_serialization_omits_none {} rfl⟩

/-- Claim C9: the Listener's echo is the pydantic-normalized form of the
body: a missing `event` becomes `"mock.document.completed"`, a missing
`data` becomes the empty dict, and the echoed payload carries exactly the
keys `event` and `data` (extras dropped). -/
theorem listener_echo_is_normalized (fields : List (String × Json))
    (n : WebhookNotification)
    (h : WebhookNotification.validate (Json.obj fields) = Except.ok n) :
    (lookupField fields "event" = none →
      n.event = "mock.document.completed") ∧
    (lookupField fields "data" = none → n.data = []) ∧
    n.toDict.map Prod.fst = ["event", "data"] := by
  refine ⟨?_, ?_, rfl⟩
  · intro he
    simp only [WebhookNotification.validate] at h
    rw [he] at h
    cases hd : lookupField fields "data" <;> rw [hd] at h
    case none =>
      injection h with h2
      subst h2
      rfl
    case some v =>
      cases v <;> first
        | exact Except.noConfusion h
        | (injection h with h2; subst h2; rfl)
  · intro hd
    simp only [WebhookNotification.validate] at h
    rw [hd] at h
    cases he : lookupField fields "event" <;> rw [he] at h
    case none =>
      injection h with h2
      subst h2
      rfl
    case some v =>
      cases v <;> first
        | exact Except.noConfusion h
        | (injection h with h2; subst h2; rfl)

/-- Witness for C9 at the body `(junk = 5)`: both fields missing, one
extra key. -/
theorem listener_echo_is_normalized_witness :
    WebhookNotification.validate (Json.obj [("junk", Json.num 5)]) =
      Except.ok ⟨"mock.document.completed", []⟩ ∧
    ((lookupField [("junk", Json.num 5)] "event" = none →
      (⟨"mock.document.completed", []⟩ : WebhookNotification).event =
        "mock.document.completed") ∧
    (lookupField [("junk", Json.num 5)] "data" = none →
      (⟨"mock.document.completed", []⟩ : WebhookNotification).data = []) ∧
    (⟨"mock.document.completed", []⟩ : WebhookNotification).toDict.map
        Prod.fst = ["event", "data"]) :=
  ⟨rfl, listener_echo_is_normalized [("junk", Json.num 5)] _ rfl⟩

/-- Claim C10: supplying `webhook_payload = ()` (the empty dict) counts as
an explicit override: it validates to `some (empty dict)`, the response's
`webhook_payload` is the empty dict, and the empty dict is what gets
scheduled — no synthesis from `mock_payload`. -/
theorem mock_api_empty_override (mp : List (String × Json)) :
    MockGsealRequest.validate
        (Json.obj [("mock_payload", Json.obj mp),
                   ("webhook_payload", Json.obj [])]) =
      Except.ok ⟨mp, some []⟩ ∧
    (mock_gseal_api ⟨mp, some []⟩).scheduled = [] ∧
    lookupField (mock_gseal_api ⟨mp, some []⟩).response "webhook_payload" =
      some (Json.obj []) :=
  ⟨rfl, rfl, rfl⟩
